import Mathlib

/-!
Verification of the interview session life cycle of `main.py`
(`start_interview`, `submit_response`) over a shallow embedding.

The process-wide dict `active_interviews : Dict[str, Dict]` is modelled as an
association list from interview ids to `Session` records; the FastAPI
`HTTPException` raises become the constructors of `ApiError`.  The collaborator
`FreeInterviewAgent` (file `interview_agent_free.py`, imported by `main.py` but
not among the sources) is modelled from the spec where noted.
-/

namespace InterviewAI

/-- Session status: the string field `status` of a session dict in `main.py`
takes exactly the two values `"active"` and `"completed"`. -/
inductive Status where
  | active
  | completed
deriving DecidableEq, Repr

/-- Per-question analysis record, the shape produced by
`FreeInterviewAgent.analyze_response` (spec §3 "Analysis"): four bounded
numeric scores, feedback text, strengths and improvement-area lists.  All
scores in this embedding are exact integers counted in tenths of a point
(85 stands for 8.5), which carries the spec's one-decimal precision in
integer arithmetic. -/
structure Analysis where
  overall_score : ℕ
  relevance_score : ℕ
  completeness_score : ℕ
  clarity_score : ℕ
  feedback : String
  strengths : List String
  improvement_areas : List String
deriving DecidableEq, Repr

/-- Final report, the shape produced by
`FreeInterviewAgent.calculate_final_score` (spec §3 "FinalReport"); scores in
tenths of a point, as in `Analysis`. -/
structure FinalResult where
  overall_score : ℕ
  detailed_feedback : String
  areas_for_improvement : List String
  strength_analysis : List String
  category_breakdown : List (String × ℕ)
deriving DecidableEq, Repr

/-- One interview session: the dict built at lines 77–88 of `main.py`. -/
structure Session where
  interview_id : String
  user_id : String
  category : String
  questions : List String
  current_question : Nat
  responses : List String
  scores : List Analysis
  status : Status
  start_time : String
  final_result : Option FinalResult
deriving DecidableEq, Repr

/-- The error taxonomy of the two core endpooints: each constructor is one
`raise HTTPException` site of `start_interview` / `submit_response`. -/
inductive ApiError where
  | invalidCategory (category : String)
  | questionGenerationFailed
  | sessionNotFound
  | sessionAlreadyCompleted
  | noQuestionsRemaining
deriving DecidableEq, Repr

/-- The in-memory session store `active_interviews`, a string-keyed mapping. -/
abbrev Store := List (String × Session)

/-- Mapping lookup (`interview_id in active_interviews` /
`active_interviews[interview_id]`). -/
def alookup {α : Type} : List (String × α) → String → Option α
  | [], _ => none
  | (k, v) :: rest, key => if k = key then some v else alookup rest key

/-- Mapping update (`active_interviews[interview_id] = session`): replaces the
binding if the key is present, otherwise appends it. -/
def ainsert {α : Type} : List (String × α) → String → α → List (String × α)
  | [], key, v => [(key, v)]
  | (k, w) :: rest, key, v =>
      if k = key then (key, v) :: rest else (k, w) :: ainsert rest key v

/-- The agent object: its `question_templates` field maps each category id to
its ordered list of question templates.  The file defining the class is not
among the sources, so the field is kept abstract data. -/
structure FreeInterviewAgent where
  question_templates : List (String × List String)
deriving DecidableEq, Repr

/-- Modelled from the spec: QuestionBank (`FreeInterviewAgent.generate_questions`
in `interview_agent_free.py`, not among the sources).  Spec §4.4: returns the
ordered question templates for the category, truncated to `count`; fewer than
`count` only if the template set has fewer entries; empty for an unknown
category. -/
def FreeInterviewAgent.generate_questions (ag : FreeInterviewAgent)
    (category : String) (count : Nat) : List String :=
  match alookup ag.question_templates category with
  | some qs => qs.take count
  | none => []

/-- Number of words of a response: maximal space-free runs of characters. -/
def wordCount (s : String) : Nat :=
  ((s.toList.splitOn ' ').filter (fun w => w ≠ [])).length

/-- Arithmetic mean of tenths-valued scores, rounded half-up to the nearest
tenth — the spec's "rounded to one decimal place" in integer arithmetic.
The call sites only ever pass nonempty lists; the empty list yields 0. -/
def meanRounded (xs : List ℕ) : ℕ :=
  if xs.length = 0 then 0 else (2 * xs.sum + xs.length) / (2 * xs.length)

/-- Modelled from the spec: ResponseScorer (`FreeInterviewAgent.analyze_response`
in `interview_agent_free.py`, not among the sources).  Spec §4.2: a
deterministic pure function of (question, responseText, category) that never
fails, with a length-based completeness signal, a keyword-overlap relevance
signal and a structure-based clarity signal; exact thresholds are
implementation latitude, the output shape is the contract.  Scores in tenths,
each bounded by 100 (that is, 10.0). -/
def FreeInterviewAgent.analyze_response (_ag : FreeInterviewAgent)
    (question response _category : String) : Analysis :=
  let ws := (response.toList.splitOn ' ').filter (fun w => w ≠ [])
  let wc := ws.length
  let qws := (question.toList.splitOn ' ').filter (fun w => w ≠ [])
  let overlap := (qws.filter (fun w => w ∈ ws)).length
  let completeness := 10 * min 10 (wc / 3)
  let relevance := 10 * min 10 (2 * overlap)
  let sentences := (response.toList.filter (fun ch => ch = '.')).length
  let clarity := if wc = 0 then 0 else 10 * min 10 (3 + 2 * sentences)
  let overall := meanRounded [relevance, completeness, clarity]
  { overall_score := overall
    relevance_score := relevance
    completeness_score := completeness
    clarity_score := clarity
    feedback :=
      if 70 ≤ overall then "Strong answer."
      else if 40 ≤ overall then "Adequate answer."
      else "Needs more substance."
    strengths :=
      (if 70 ≤ completeness then ["detailed response"] else []) ++
      (if 70 ≤ relevance then ["relevant content"] else [])
    improvement_areas :=
      (if completeness < 70 then ["add more detail"] else []) ++
      (if relevance < 70 then ["address the question directly"] else []) }

/-- Order-preserving deduplication by first occurrence, capped at five items,
as the spec's aggregation rule for the two rolled-up string lists. -/
def dedupCap5 (xss : List (List String)) : List String :=
  ((xss.foldl (fun acc xs => acc ++ xs) []).foldl
    (fun acc x => if x ∈ acc then acc else acc ++ [x]) []).take 5

/-- Modelled from the spec: FinalAggregator
(`FreeInterviewAgent.calculate_final_score` in `interview_agent_free.py`, not
among the sources).  Spec §4.3: overall score and per-dimension breakdown are
arithmetic means rounded to one decimal place (tenths here); strengths and
improvement areas are deduplicated order-preserving unions capped at five; the
narrative reflects the score band.  The call sites only ever pass a nonempty
list (aggregation happens exactly at cursor = N ≥ 1); on the empty list
`meanRounded` yields a degenerate all-zero report rather than a failure. -/
def FreeInterviewAgent.calculate_final_score (_ag : FreeInterviewAgent)
    (scores : List Analysis) : FinalResult :=
  let overall := meanRounded (scores.map (fun a => a.overall_score))
  let rel := meanRounded (scores.map (fun a => a.relevance_score))
  let comp := meanRounded (scores.map (fun a => a.completeness_score))
  let clar := meanRounded (scores.map (fun a => a.clarity_score))
  { overall_score := overall
    detailed_feedback :=
      if 75 ≤ overall then "Strong overall performance."
      else if 50 ≤ overall then "Adequate overall performance."
      else "Overall performance needs improvement."
    areas_for_improvement := dedupCap5 (scores.map (fun a => a.improvement_areas))
    strength_analysis := dedupCap5 (scores.map (fun a => a.strengths))
    category_breakdown :=
      [("relevance", rel), ("completeness", comp), ("clarity", clar)] }

/-- The successful response of `/start-interview` (lines 92–98 of `main.py`). -/
structure StartResponse where
  interview_id : String
  question : String
  question_index : Nat
  total_questions : Nat
  category : String
deriving DecidableEq, Repr

/-- The successful response of `/submit-response`: the dict at lines 151–159
(`interview_complete: True`, flattened final result plus the last analysis) or
the dict at lines 162–168 (`interview_complete: False`, next question, its
index, the total and the last analysis). -/
inductive SubmitResult where
  | complete (final_result : FinalResult) (current_response_analysis : Analysis)
  | next (next_question : String) (question_index : Nat) (total_questions : Nat)
      (current_response_analysis : Analysis)
deriving DecidableEq, Repr

/-- The `/start-interview` endpoint, lines 56–104 of `main.py`.  `now` stands
for `datetime.now().strftime('%Y%m%d_%H%M%S')` at line 71 and `now_iso` for
`datetime.now().isoformat()` at line 86; both are inputs of the embedding since
the clock is ambient state.  Returns the store as left by the handler together
with the response or the raised error. -/
def start_interview (ag : FreeInterviewAgent) (store : Store)
    (category user_id now now_iso : String) :
    Store × Except ApiError StartResponse :=
  let valid_categories := ag.question_templates.map Prod.fst
  if category ∈ valid_categories then
    let interview_id := user_id ++ "_" ++ now
    let questions := ag.generate_questions category 8
    match questions with
    | [] => (store, Except.error ApiError.questionGenerationFailed)
    | q0 :: _ =>
        let session : Session :=
          { interview_id := interview_id
            user_id := user_id
            category := category
            questions := questions
            current_question := 0
            responses := []
            scores := []
            status := Status.active
            start_time := now_iso
            final_result := none }
        (ainsert store interview_id session,
          Except.ok
            { interview_id := interview_id
              question := q0
              question_index := 0
              total_questions := questions.length
              category := category })
  else (store, Except.error (ApiError.invalidCategory category))

/-- The `/submit-response` endpoint, lines 107–174 of `main.py`.  Returns the
store as left by the handler together with the response or the raised error. -/
def submit_response (ag : FreeInterviewAgent) (store : Store)
    (interview_id response_text : String) :
    Store × Except ApiError SubmitResult :=
  match alookup store interview_id with
  | none => (store, Except.error ApiError.sessionNotFound)
  | some session =>
    if session.status = Status.completed then
      (store, Except.error ApiError.sessionAlreadyCompleted)
    else
      let current_idx := session.current_question
      let total := session.questions.length
      if total ≤ current_idx then
        (store, Except.error ApiError.noQuestionsRemaining)
      else
        let current_question := session.questions.getD current_idx ""
        let analysis := ag.analyze_response current_question response_text
          session.category
        let next_idx := current_idx + 1
        if total ≤ next_idx then
          let scores1 := session.scores ++ [analysis]
          let final_result := ag.calculate_final_score scores1
          let session1 : Session :=
            { session with
                responses := session.responses ++ [response_text]
                scores := scores1
                current_question := next_idx
                status := Status.completed
                final_result := some final_result }
          (ainsert store interview_id session1,
            Except.ok (SubmitResult.complete final_result analysis))
        else
          let session1 : Session :=
            { session with
                responses := session.responses ++ [response_text]
                scores := session.scores ++ [analysis]
                current_question := next_idx }
          (ainsert store interview_id session1,
            Except.ok (SubmitResult.next (session.questions.getD next_idx "")
              next_idx total analysis))

/-- Runs `submit_response` once per element of `texts` on the same session id,
succeeding only if every call succeeds; the resulting store is returned. -/
def submit_many (ag : FreeInterviewAgent) (store : Store) (interview_id : String) :
    List String → Option Store
  | [] => some store
  | t :: ts =>
      match submit_response ag store interview_id t with
      | (store1, Except.ok _) => submit_many ag store1 interview_id ts
      | (_, Except.error _) => none

/-- Modelled from the spec: a concrete agent instance with the fixed category
set {technical, behavioral, management, sales} (spec §3, and the
`/categories` endpoint of `main.py` whose ids "must match your
question_templates keys") and eight templates per category (spec §8
end-to-end scenario: question 1 of 8). -/
def defaultAgent : FreeInterviewAgent :=
  { question_templates :=
      [("technical", ["T1", "T2", "T3", "T4", "T5", "T6", "T7", "T8"]),
       ("behavioral", ["B1", "B2", "B3", "B4", "B5", "B6", "B7", "B8"]),
       ("management", ["M1", "M2", "M3", "M4", "M5", "M6", "M7", "M8"]),
       ("sales", ["S1", "S2", "S3", "S4", "S5", "S6", "S7", "S8"])] }

/-- An agent whose bank holds only three technical templates, exercising the
fewer-than-eight-questions path of `start_interview`. -/
def smallAgent : FreeInterviewAgent :=
  { question_templates :=
      [("technical", ["T1", "T2", "T3"]),
       ("behavioral", ["B1"]),
       ("management", ["M1"]),
       ("sales", ["S1"])] }

instance {e a : Type} [DecidableEq e] [DecidableEq a] : DecidableEq (Except e a) := fun
  | Except.ok x, Except.ok y =>
      if h : x = y then isTrue (by rw [h])
      else isFalse (by intro hc; cases hc; exact h rfl)
  | Except.error x, Except.error y =>
      if h : x = y then isTrue (by rw [h])
      else isFalse (by intro hc; cases hc; exact h rfl)
  | Except.ok _, Except.error _ => isFalse (by intro hc; cases hc)
  | Except.error _, Except.ok _ => isFalse (by intro hc; cases hc)

/-! ### Basic association-list lemmas -/

theorem alookup_ainsert_self {α : Type} (st : List (String × α)) (k : String) (v : α) :
    alookup (ainsert st k v) k = some v := by
  induction st with
  | nil => simp [ainsert, alookup]
  | cons p rest ih =>
      obtain ⟨k0, v0⟩ := p
      by_cases h : k0 = k
      · simp [ainsert, alookup, h]
      · simp [ainsert, alookup, h, ih]

theorem alookup_ainsert_ne {α : Type} (st : List (String × α)) (k k' : String) (v : α)
    (h : k' ≠ k) :
    alookup (ainsert st k v) k' = alookup st k' := by
  have h' : k ≠ k' := Ne.symm h
  induction st with
  | nil => simp [ainsert, alookup, h']
  | cons p rest ih =>
      obtain ⟨k0, v0⟩ := p
      by_cases h0 : k0 = k
      · subst h0
        simp [ainsert, alookup, h']
      · simp [ainsert, alookup, h0, ih]

/-! ### Characterization of `submit_response` -/

/-- The session update a successful submission performs: append the response
and its analysis, advance the cursor, and close out the session when the new
cursor reaches the question count. -/
def stepSession (ag : FreeInterviewAgent) (s : Session) (t : String) : Session :=
  let analysis := ag.analyze_response (s.questions.getD s.current_question "") t s.category
  if s.questions.length ≤ s.current_question + 1 then
    { s with
        responses := s.responses ++ [t]
        scores := s.scores ++ [analysis]
        current_question := s.current_question + 1
        status := Status.completed
        final_result := some (ag.calculate_final_score (s.scores ++ [analysis])) }
  else
    { s with
        responses := s.responses ++ [t]
        scores := s.scores ++ [analysis]
        current_question := s.current_question + 1 }

/-- The response a successful submission returns. -/
def stepResult (ag : FreeInterviewAgent) (s : Session) (t : String) : SubmitResult :=
  let analysis := ag.analyze_response (s.questions.getD s.current_question "") t s.category
  if s.questions.length ≤ s.current_question + 1 then
    SubmitResult.complete (ag.calculate_final_score (s.scores ++ [analysis])) analysis
  else
    SubmitResult.next (s.questions.getD (s.current_question + 1) "")
      (s.current_question + 1) s.questions.length analysis

theorem submit_response_eq_of (ag : FreeInterviewAgent) (store : Store)
    (iid t : String) (s : Session)
    (h1 : alookup store iid = some s) (h2 : s.status = Status.active)
    (h3 : s.current_question < s.questions.length) :
    submit_response ag store iid t =
      (ainsert store iid (stepSession ag s t), Except.ok (stepResult ag s t)) := by
  have hnc : ¬(s.status = Status.completed) := by rw [h2]; intro hc; cases hc
  have hlt : ¬(s.questions.length ≤ s.current_question) := Nat.not_le.mpr h3
  unfold submit_response stepSession stepResult
  rw [h1]
  simp only [hnc, if_false, hlt, if_false]
  by_cases hend : s.questions.length ≤ s.current_question + 1
  · simp [hend]
  · simp [hend]

theorem submit_response_not_found (ag : FreeInterviewAgent) (store : Store)
    (iid t : String) (h : alookup store iid = none) :
    submit_response ag store iid t = (store, Except.error ApiError.sessionNotFound) := by
  unfold submit_response
  rw [h]

theorem submit_response_completed (ag : FreeInterviewAgent) (store : Store)
    (iid t : String) (s : Session)
    (h1 : alookup store iid = some s) (h2 : s.status = Status.completed) :
    submit_response ag store iid t =
      (store, Except.error ApiError.sessionAlreadyCompleted) := by
  unfold submit_response
  rw [h1]
  simp [h2]

theorem submit_response_no_questions (ag : FreeInterviewAgent) (store : Store)
    (iid t : String) (s : Session)
    (h1 : alookup store iid = some s) (h2 : ¬(s.status = Status.completed))
    (h3 : s.questions.length ≤ s.current_question) :
    submit_response ag store iid t =
      (store, Except.error ApiError.noQuestionsRemaining) := by
  unfold submit_response
  rw [h1]
  simp [h2, h3]

theorem status_active_of_ne_completed (s : Status) (h : ¬(s = Status.completed)) :
    s = Status.active := by
  cases s
  · rfl
  · exact absurd rfl h

theorem submit_response_ok_inv (ag : FreeInterviewAgent) (store : Store)
    (iid t : String) (st' : Store) (r : SubmitResult)
    (h : submit_response ag store iid t = (st', Except.ok r)) :
    ∃ s : Session, alookup store iid = some s ∧ s.status = Status.active ∧
      s.current_question < s.questions.length ∧
      st' = ainsert store iid (stepSession ag s t) ∧ r = stepResult ag s t := by
  cases hl : alookup store iid with
  | none =>
      rw [submit_response_not_found ag store iid t hl] at h
      simp at h
  | some s =>
      by_cases hc : s.status = Status.completed
      · rw [submit_response_completed ag store iid t s hl hc] at h
        simp at h
      · have hs : s.status = Status.active := status_active_of_ne_completed s.status hc
        by_cases hq : s.current_question < s.questions.length
        · rw [submit_response_eq_of ag store iid t s hl hs hq] at h
          injection h with ha hb
          injection hb with hb
          exact ⟨s, rfl, hs, hq, ha.symm, hb.symm⟩
        · rw [submit_response_no_questions ag store iid t s hl hc (Nat.not_lt.mp hq)] at h
          simp at h

theorem submit_response_error_store (ag : FreeInterviewAgent) (store : Store)
    (iid t : String) (e : ApiError)
    (he : (submit_response ag store iid t).2 = Except.error e) :
    (submit_response ag store iid t).1 = store := by
  cases hl : alookup store iid with
  | none => rw [submit_response_not_found ag store iid t hl]
  | some s =>
      by_cases hc : s.status = Status.completed
      · rw [submit_response_completed ag store iid t s hl hc]
      · by_cases hq : s.current_question < s.questions.length
        · rw [submit_response_eq_of ag store iid t s hl
            (status_active_of_ne_completed s.status hc) hq] at he
          simp at he
        · rw [submit_response_no_questions ag store iid t s hl hc (Nat.not_lt.mp hq)]

theorem stepSession_responses (ag : FreeInterviewAgent) (s : Session) (t : String) :
    (stepSession ag s t).responses = s.responses ++ [t] := by
  unfold stepSession
  split <;> rfl

theorem stepSession_scores (ag : FreeInterviewAgent) (s : Session) (t : String) :
    (stepSession ag s t).scores =
      s.scores ++ [ag.analyze_response (s.questions.getD s.current_question "") t s.category] := by
  unfold stepSession
  split <;> rfl

theorem stepSession_cursor (ag : FreeInterviewAgent) (s : Session) (t : String) :
    (stepSession ag s t).current_question = s.current_question + 1 := by
  unfold stepSession
  split <;> rfl

theorem stepSession_questions (ag : FreeInterviewAgent) (s : Session) (t : String) :
    (stepSession ag s t).questions = s.questions := by
  unfold stepSession
  split <;> rfl

theorem stepSession_category (ag : FreeInterviewAgent) (s : Session) (t : String) :
    (stepSession ag s t).category = s.category := by
  unfold stepSession
  split <;> rfl

theorem stepSession_id (ag : FreeInterviewAgent) (s : Session) (t : String) :
    (stepSession ag s t).interview_id = s.interview_id := by
  unfold stepSession
  split <;> rfl

theorem stepSession_status (ag : FreeInterviewAgent) (s : Session) (t : String) :
    (stepSession ag s t).status =
      (if s.questions.length ≤ s.current_question + 1 then Status.completed
       else s.status) := by
  unfold stepSession
  split <;> simp_all

/-! ### The session invariant -/

/-- The per-session invariant of spec §3: responses, analyses and cursor in
lockstep, the cursor bounded by the question count, the status reflecting
whether the cursor reached it, and a nonempty question list. -/
def SessionInv (s : Session) : Prop :=
  s.responses.length = s.current_question ∧
  s.scores.length = s.current_question ∧
  s.current_question ≤ s.questions.length ∧
  (s.status = Status.completed ↔ s.current_question = s.questions.length) ∧
  s.questions ≠ []

theorem stepSession_inv (ag : FreeInterviewAgent) (s : Session) (t : String)
    (hinv : SessionInv s) (hlt : s.current_question < s.questions.length) :
    SessionInv (stepSession ag s t) := by
  obtain ⟨hr, hsc, _hle, hiff, hne⟩ := hinv
  refine ⟨?_, ?_, ?_, ?_, ?_⟩
  · rw [stepSession_responses, stepSession_cursor, List.length_append, hr]
    rfl
  · rw [stepSession_scores, stepSession_cursor, List.length_append, hsc]
    rfl
  · rw [stepSession_cursor, stepSession_questions]
    omega
  · rw [stepSession_status, stepSession_cursor, stepSession_questions]
    by_cases hend : s.questions.length ≤ s.current_question + 1
    · rw [if_pos hend]
      constructor
      · intro _
        omega
      · intro _
        rfl
    · rw [if_neg hend]
      constructor
      · intro hcomp
        exact absurd (hiff.mp hcomp) (by omega)
      · intro heq
        exact absurd heq (by omega)
  · rw [stepSession_questions]
    exact hne

/-! ### Characterization of `start_interview` -/

theorem start_interview_invalid (ag : FreeInterviewAgent) (store : Store)
    (category user_id now now_iso : String)
    (h : ¬(category ∈ ag.question_templates.map Prod.fst)) :
    start_interview ag store category user_id now now_iso =
      (store, Except.error (ApiError.invalidCategory category)) := by
  unfold start_interview
  simp [h]

theorem start_interview_no_questions (ag : FreeInterviewAgent) (store : Store)
    (category user_id now now_iso : String)
    (h1 : category ∈ ag.question_templates.map Prod.fst)
    (h2 : ag.generate_questions category 8 = []) :
    start_interview ag store category user_id now now_iso =
      (store, Except.error ApiError.questionGenerationFailed) := by
  unfold start_interview
  simp only [h1, if_true, h2]

theorem start_interview_ok_eq (ag : FreeInterviewAgent) (store : Store)
    (category user_id now now_iso : String) (q0 : String) (qs : List String)
    (h1 : category ∈ ag.question_templates.map Prod.fst)
    (h2 : ag.generate_questions category 8 = q0 :: qs) :
    start_interview ag store category user_id now now_iso =
      (ainsert store (user_id ++ "_" ++ now)
        (Session.mk (user_id ++ "_" ++ now) user_id category (q0 :: qs) 0 [] []
          Status.active now_iso none),
       Except.ok (StartResponse.mk (user_id ++ "_" ++ now) q0 0 (q0 :: qs).length
         category)) := by
  unfold start_interview
  simp only [h1, if_true, h2]

theorem start_interview_ok_inv (ag : FreeInterviewAgent) (store : Store)
    (category user_id now now_iso : String) (st' : Store) (r : StartResponse)
    (h : start_interview ag store category user_id now now_iso = (st', Except.ok r)) :
    category ∈ ag.question_templates.map Prod.fst ∧
    ∃ q0 qs, ag.generate_questions category 8 = q0 :: qs ∧
      r = StartResponse.mk (user_id ++ "_" ++ now) q0 0 (q0 :: qs).length category ∧
      st' = ainsert store (user_id ++ "_" ++ now)
        (Session.mk (user_id ++ "_" ++ now) user_id category (q0 :: qs) 0 [] []
          Status.active now_iso none) := by
  by_cases hm : category ∈ ag.question_templates.map Prod.fst
  · cases hq : ag.generate_questions category 8 with
    | nil =>
        rw [start_interview_no_questions ag store category user_id now now_iso hm hq] at h
        simp at h
    | cons q0 qs =>
        rw [start_interview_ok_eq ag store category user_id now now_iso q0 qs hm hq] at h
        injection h with ha hb
        injection hb with hb
        exact ⟨hm, q0, qs, rfl, hb.symm, ha.symm⟩
  · rw [start_interview_invalid ag store category user_id now now_iso hm] at h
    simp at h

theorem fresh_session_inv (iid user_id category now_iso : String)
    (q0 : String) (qs : List String) :
    SessionInv (Session.mk iid user_id category (q0 :: qs) 0 [] []
      Status.active now_iso none) := by
  refine ⟨rfl, rfl, by simp, ?_, by simp⟩
  constructor
  · intro hc
    cases hc
  · intro heq
    simp at heq

/-! ### Reachable stores and the store-wide invariant -/

/-- Stores reachable from the empty `active_interviews` mapping through
successful endpoint calls.  Failing calls leave the store unchanged
(`submit_response_error_store`, `start_interview_invalid`,
`start_interview_no_questions`), so adding them would reach no further
stores. -/
inductive Reachable (ag : FreeInterviewAgent) : Store → Prop where
  | empty : Reachable ag []
  | create (st : Store) (category user_id now now_iso : String)
      (st' : Store) (r : StartResponse) :
      Reachable ag st →
      start_interview ag st category user_id now now_iso = (st', Except.ok r) →
      Reachable ag st'
  | answer (st : Store) (iid t : String) (st' : Store) (r : SubmitResult) :
      Reachable ag st →
      submit_response ag st iid t = (st', Except.ok r) →
      Reachable ag st'

/-- Every session of the store satisfies the session invariant. -/
def StoreInv (st : Store) : Prop :=
  ∀ iid s, alookup st iid = some s → SessionInv s

theorem storeInv_ainsert (st : Store) (key : String) (v : Session)
    (hst : StoreInv st) (hv : SessionInv v) : StoreInv (ainsert st key v) := by
  intro iid s hl
  by_cases hk : iid = key
  · subst hk
    rw [alookup_ainsert_self] at hl
    cases hl
    exact hv
  · rw [alookup_ainsert_ne st key iid v hk] at hl
    exact hst iid s hl

theorem reachable_storeInv (ag : FreeInterviewAgent) (st : Store)
    (h : Reachable ag st) : StoreInv st := by
  induction h with
  | empty => intro iid s hl; cases hl
  | create st0 category user_id now now_iso st' r _hre hok ih =>
      obtain ⟨_, q0, qs, _, _, hst'⟩ :=
        start_interview_ok_inv ag st0 category user_id now now_iso st' r hok
      subst hst'
      exact storeInv_ainsert st0 _ _ ih
        (fresh_session_inv (user_id ++ "_" ++ now) user_id category now_iso q0 qs)
  | answer st0 iid t st' r _hre hok ih =>
      obtain ⟨s, hl, hact, hlt, hst', _⟩ :=
        submit_response_ok_inv ag st0 iid t st' r hok
      subst hst'
      exact storeInv_ainsert st0 iid _ ih
        (stepSession_inv ag s t (ih iid s hl) hlt)

/-! ### Iterated submissions -/

theorem submit_many_ok (ag : FreeInterviewAgent) (texts : List String) :
    ∀ (store : Store) (iid : String) (s : Session) (st2 : Store),
      alookup store iid = some s → SessionInv s →
      submit_many ag store iid texts = some st2 →
      ∃ s2 : Session, alookup st2 iid = some s2 ∧ SessionInv s2 ∧
        s2.current_question = s.current_question + texts.length ∧
        s2.responses = s.responses ++ texts ∧
        s2.scores.length = s.scores.length + texts.length ∧
        s2.questions = s.questions ∧ s2.category = s.category ∧
        s2.interview_id = s.interview_id := by
  induction texts with
  | nil =>
      intro store iid s st2 hl hinv hsub
      unfold submit_many at hsub
      cases hsub
      exact ⟨s, hl, hinv, by simp, by simp, by simp, rfl, rfl, rfl⟩
  | cons t ts ih =>
      intro store iid s st2 hl hinv hsub
      unfold submit_many at hsub
      cases hsr : submit_response ag store iid t with
      | mk st1 res =>
          rw [hsr] at hsub
          cases res with
          | error e => simp at hsub
          | ok r =>
              obtain ⟨s0, hl0, hact, hlt, hst1, _⟩ :=
                submit_response_ok_inv ag store iid t st1 r hsr
              rw [hl] at hl0
              cases hl0
              subst hst1
              have hl1 : alookup (ainsert store iid (stepSession ag s t)) iid =
                  some (stepSession ag s t) := alookup_ainsert_self store iid _
              obtain ⟨s2, hl2, hinv2, hc2, hr2, hs2, hq2, hcat2, hid2⟩ :=
                ih (ainsert store iid (stepSession ag s t)) iid (stepSession ag s t)
                  st2 hl1 (stepSession_inv ag s t hinv hlt) hsub
              refine ⟨s2, hl2, hinv2, ?_, ?_, ?_, ?_, ?_, ?_⟩
              · rw [hc2, stepSession_cursor]
                simp only [List.length_cons]
                omega
              · rw [hr2, stepSession_responses]
                simp
              · rw [hs2, stepSession_scores]
                simp only [List.length_append, List.length_cons, List.length_nil]
                omega
              · rw [hq2, stepSession_questions]
              · rw [hcat2, stepSession_category]
              · rw [hid2, stepSession_id]

theorem stepResult_complete (ag : FreeInterviewAgent) (s : Session) (t : String)
    (hend : s.questions.length ≤ s.current_question + 1) :
    stepResult ag s t = SubmitResult.complete
      (ag.calculate_final_score (s.scores ++
        [ag.analyze_response (s.questions.getD s.current_question "") t s.category]))
      (ag.analyze_response (s.questions.getD s.current_question "") t s.category) := by
  unfold stepResult
  split
  · rfl
  · next hc => exact absurd hend hc

theorem stepResult_next (ag : FreeInterviewAgent) (s : Session) (t : String)
    (hlt : s.current_question + 1 < s.questions.length) :
    stepResult ag s t = SubmitResult.next (s.questions.getD (s.current_question + 1) "")
      (s.current_question + 1) s.questions.length
      (ag.analyze_response (s.questions.getD s.current_question "") t s.category) := by
  unfold stepResult
  split
  · next hc => exact absurd hc (Nat.not_le.mpr hlt)
  · rfl

theorem stepSession_complete (ag : FreeInterviewAgent) (s : Session) (t : String)
    (hend : s.questions.length ≤ s.current_question + 1) :
    (stepSession ag s t).status = Status.completed ∧
    (stepSession ag s t).final_result = some
      (ag.calculate_final_score (s.scores ++
        [ag.analyze_response (s.questions.getD s.current_question "") t s.category])) := by
  unfold stepSession
  split
  · exact ⟨rfl, rfl⟩
  · next hc => exact absurd hend hc

/-! ### Concrete runs used by the witnesses and counterexamples -/

def bStore1 : Store := (start_interview smallAgent [] "behavioral" "u" "T" "iso").1

def bStart : StartResponse := StartResponse.mk "u_T" "B1" 0 1 "behavioral"

def bSession : Session :=
  Session.mk "u_T" "u" "behavioral" ["B1"] 0 [] [] Status.active "iso" none

def bStore2 : Store := (submit_response smallAgent bStore1 "u_T" "hi").1

def bRes : Except ApiError SubmitResult := (submit_response smallAgent bStore1 "u_T" "hi").2

def bAnalysis : Analysis := smallAgent.analyze_response "B1" "hi" "behavioral"

def bFinal : FinalResult := smallAgent.calculate_final_score [bAnalysis]

def bDone : Session := stepSession smallAgent bSession "hi"

def techStore : Store := (start_interview defaultAgent [] "technical" "u" "T" "iso").1

def bothStore : Store :=
  (start_interview defaultAgent techStore "behavioral" "u" "T" "iso").1

def techStore2 : Store := (submit_response defaultAgent techStore "u_T" "x").1

def techRes : Except ApiError SubmitResult :=
  (submit_response defaultAgent techStore "u_T" "x").2

/-! ### The claims -/

/-- C1: for every session created by `start_interview` and every sequence of
successful `submit_response` calls on it, the cursor equals the number of
calls, the responses and scores lists both have that length, and the status is
completed exactly when that number equals the session's question count. -/
theorem session_counters_after_k_submits (ag : FreeInterviewAgent) (store : Store)
    (category user_id now now_iso : String) (st1 : Store) (r : StartResponse)
    (texts : List String) (st2 : Store)
    (hstart : start_interview ag store category user_id now now_iso = (st1, Except.ok r))
    (hsub : submit_many ag st1 r.interview_id texts = some st2) :
    ∃ s : Session, alookup st2 r.interview_id = some s ∧
      s.current_question = texts.length ∧
      s.responses.length = texts.length ∧
      s.scores.length = texts.length ∧
      (s.status = Status.completed ↔ texts.length = s.questions.length) := by
  obtain ⟨_, q0, qs, hgen, hr, hst1⟩ :=
    start_interview_ok_inv ag store category user_id now now_iso st1 r hstart
  subst hst1
  have hid : r.interview_id = user_id ++ "_" ++ now := by rw [hr]
  have hl1 : alookup (ainsert store (user_id ++ "_" ++ now)
      (Session.mk (user_id ++ "_" ++ now) user_id category (q0 :: qs) 0 [] []
        Status.active now_iso none)) r.interview_id =
      some (Session.mk (user_id ++ "_" ++ now) user_id category (q0 :: qs) 0 [] []
        Status.active now_iso none) := by
    rw [hid]
    exact alookup_ainsert_self store (user_id ++ "_" ++ now) _
  obtain ⟨s2, hl2, hinv2, hc2, hresp2, hsc2, _, _, _⟩ :=
    submit_many_ok ag texts _ r.interview_id _ st2 hl1
      (fresh_session_inv (user_id ++ "_" ++ now) user_id category now_iso q0 qs) hsub
  obtain ⟨_, _, _, hiff2, _⟩ := hinv2
  refine ⟨s2, hl2, ?_, ?_, ?_, ?_⟩
  · rw [hc2]
    simp
  · rw [hresp2]
    simp
  · rw [hsc2]
    simp
  · rw [hiff2, hc2]
    simp only [Session.current_question]
    omega

/-- C1 witness: one successful submission on a freshly created one-question
session leaves cursor 1, one response, one analysis, completed status. -/
theorem session_counters_after_k_submits_witness :
    ∃ s : Session, alookup bStore2 bStart.interview_id = some s ∧
      s.current_question = ["hi"].length ∧
      s.responses.length = ["hi"].length ∧
      s.scores.length = ["hi"].length ∧
      (s.status = Status.completed ↔ ["hi"].length = s.questions.length) :=
  session_counters_after_k_submits smallAgent [] "behavioral" "u" "T" "iso" bStore1
    bStart ["hi"] bStore2 (by decide) (by decide)

/-- C2: every `submit_response` call either fails, leaving the store exactly as
it was, or succeeds having appended the response and its analysis together and
advanced the cursor by one — no partial mutation. -/
theorem submit_response_atomic (ag : FreeInterviewAgent) (store : Store)
    (iid t : String) (st' : Store) (res : Except ApiError SubmitResult)
    (h : submit_response ag store iid t = (st', res)) :
    (∀ e : ApiError, res = Except.error e → st' = store) ∧
    (∀ r : SubmitResult, res = Except.ok r →
      ∃ s s' : Session, alookup store iid = some s ∧ alookup st' iid = some s' ∧
        s'.responses = s.responses ++ [t] ∧
        s'.scores = s.scores ++
          [ag.analyze_response (s.questions.getD s.current_question "") t s.category] ∧
        s'.current_question = s.current_question + 1) := by
  constructor
  · intro e he
    subst he
    have h2 : (submit_response ag store iid t).2 = Except.error e := by rw [h]
    have h1 := submit_response_error_store ag store iid t e h2
    rw [h] at h1
    exact h1
  · intro r hr
    subst hr
    obtain ⟨s, hl, _, _, hst', _⟩ := submit_response_ok_inv ag store iid t st' r h
    subst hst'
    exact ⟨s, stepSession ag s t, hl, alookup_ainsert_self store iid _,
      stepSession_responses ag s t, stepSession_scores ag s t, stepSession_cursor ag s t⟩

/-- C2 witness: instantiated at a concrete successful submission. -/
theorem submit_response_atomic_witness :
    (∀ e : ApiError, bRes = Except.error e → bStore2 = bStore1) ∧
    (∀ r : SubmitResult, bRes = Except.ok r →
      ∃ s s' : Session, alookup bStore1 "u_T" = some s ∧ alookup bStore2 "u_T" = some s' ∧
        s'.responses = s.responses ++ ["hi"] ∧
        s'.scores = s.scores ++
          [smallAgent.analyze_response (s.questions.getD s.current_question "") "hi"
            s.category] ∧
        s'.current_question = s.current_question + 1) :=
  submit_response_atomic smallAgent bStore1 "u_T" "hi" bStore2 bRes rfl

/-- C3 counterexample: with a bank holding only three technical templates —
fewer than N = 8 — `start_interview` does not fail with
`questionGenerationFailed`; it creates and registers a three-question
session. -/
theorem small_bank_session_created :
    smallAgent.generate_questions "technical" 8 = ["T1", "T2", "T3"] ∧
    (start_interview smallAgent [] "technical" "u" "T" "iso").2 =
      Except.ok (StartResponse.mk "u_T" "T1" 0 3 "technical") ∧
    alookup (start_interview smallAgent [] "technical" "u" "T" "iso").1 "u_T" =
      some (Session.mk "u_T" "u" "technical" ["T1", "T2", "T3"] 0 [] [] Status.active
        "iso" none) := by
  decide

/-- C3 (amended): for a valid category, `start_interview` fails with
`questionGenerationFailed` exactly when the bank supplies zero questions;
whenever it supplies at least one — even fewer than 8 — a session with that
many questions is created. -/
theorem question_generation_zero_only (ag : FreeInterviewAgent) (store : Store)
    (category user_id now now_iso : String)
    (hvalid : category ∈ ag.question_templates.map Prod.fst) :
    (ag.generate_questions category 8 = [] →
      start_interview ag store category user_id now now_iso =
        (store, Except.error ApiError.questionGenerationFailed)) ∧
    (ag.generate_questions category 8 ≠ [] →
      ∃ r : StartResponse,
        (start_interview ag store category user_id now now_iso).2 = Except.ok r ∧
        r.total_questions = (ag.generate_questions category 8).length) := by
  constructor
  · intro h0
    exact start_interview_no_questions ag store category user_id now now_iso hvalid h0
  · intro hne
    cases hq : ag.generate_questions category 8 with
    | nil => exact absurd hq hne
    | cons q0 qs =>
        rw [start_interview_ok_eq ag store category user_id now now_iso q0 qs hvalid hq]
        exact ⟨_, rfl, rfl⟩

/-- C3 (amended) witness: instantiated at the three-template bank. -/
theorem question_generation_zero_only_witness :
    (smallAgent.generate_questions "technical" 8 = [] →
      start_interview smallAgent [] "technical" "u" "T" "iso" =
        ([], Except.error ApiError.questionGenerationFailed)) ∧
    (smallAgent.generate_questions "technical" 8 ≠ [] →
      ∃ r : StartResponse,
        (start_interview smallAgent [] "technical" "u" "T" "iso").2 = Except.ok r ∧
        r.total_questions = (smallAgent.generate_questions "technical" 8).length) :=
  question_generation_zero_only smallAgent [] "technical" "u" "T" "iso" (by decide)

/-- C4 counterexample: two successful creations for the same user within the
same clock second generate the identical id `"u_T"` while the first session is
still active, and registering the second overwrites the first: afterwards the
store holds only the behavioral session. -/
theorem same_second_id_collision :
    (start_interview defaultAgent [] "technical" "u" "T" "iso").2 =
      Except.ok (StartResponse.mk "u_T" "T1" 0 8 "technical") ∧
    (start_interview defaultAgent techStore "behavioral" "u" "T" "iso").2 =
      Except.ok (StartResponse.mk "u_T" "B1" 0 8 "behavioral") ∧
    alookup techStore "u_T" = some (Session.mk "u_T" "u" "technical"
      ["T1", "T2", "T3", "T4", "T5", "T6", "T7", "T8"] 0 [] [] Status.active "iso"
      none) ∧
    bothStore = [("u_T", Session.mk "u_T" "u" "behavioral"
      ["B1", "B2", "B3", "B4", "B5", "B6", "B7", "B8"] 0 [] [] Status.active "iso"
      none)] := by
  decide

/-- C4 (amended): the ids of two successful creations are distinct — and the
second registration leaves the first id's binding untouched — provided the two
generated id strings (user id, underscore, creation timestamp) differ; with the
same user id in the same second they collide and the registration
overwrites. -/
theorem distinct_stamp_ids (ag : FreeInterviewAgent) (st : Store)
    (c1 u1 n1 i1 c2 u2 n2 i2 : String) (st1 : Store) (r1 : StartResponse)
    (st2 : Store) (r2 : StartResponse)
    (h1 : start_interview ag st c1 u1 n1 i1 = (st1, Except.ok r1))
    (h2 : start_interview ag st1 c2 u2 n2 i2 = (st2, Except.ok r2))
    (hne : u1 ++ "_" ++ n1 ≠ u2 ++ "_" ++ n2) :
    r1.interview_id ≠ r2.interview_id ∧
    alookup st2 r1.interview_id = alookup st1 r1.interview_id := by
  obtain ⟨_, q0, qs, _, hr1, _⟩ := start_interview_ok_inv ag st c1 u1 n1 i1 st1 r1 h1
  obtain ⟨_, p0, ps, _, hr2, hst2⟩ :=
    start_interview_ok_inv ag st1 c2 u2 n2 i2 st2 r2 h2
  subst hr1
  subst hr2
  subst hst2
  constructor
  · simpa using hne
  · exact alookup_ainsert_ne st1 (u2 ++ "_" ++ n2) _ _ (by simpa using hne)

/-- C4 (amended) witness: same user, different seconds. -/
theorem distinct_stamp_ids_witness :
    (StartResponse.mk "u_T" "T1" 0 8 "technical").interview_id ≠
      (StartResponse.mk "u_T2" "B1" 0 8 "behavioral").interview_id ∧
    alookup (start_interview defaultAgent techStore "behavioral" "u" "T2" "iso").1
        (StartResponse.mk "u_T" "T1" 0 8 "technical").interview_id =
      alookup techStore (StartResponse.mk "u_T" "T1" 0 8 "technical").interview_id :=
  distinct_stamp_ids defaultAgent [] "technical" "u" "T" "iso" "behavioral" "u" "T2"
    "iso" techStore (StartResponse.mk "u_T" "T1" 0 8 "technical")
    (start_interview defaultAgent techStore "behavioral" "u" "T2" "iso").1
    (StartResponse.mk "u_T2" "B1" 0 8 "behavioral") (by decide) (by decide) (by decide)

/-- C5: a successful submission on a session with cursor c returns, when
c + 1 is still below the question count, a "continue"-shaped result carrying
questions[c+1], the new cursor and the fresh analysis; when c + 1 reaches the
question count it returns a "complete"-shaped result carrying the aggregate of
the full analyses list plus the last analysis, and the stored session becomes
completed with the final report recorded. -/
theorem submit_result_tagging (ag : FreeInterviewAgent) (store : Store)
    (iid t : String) (s : Session) (st' : Store) (r : SubmitResult)
    (hl : alookup store iid = some s)
    (h : submit_response ag store iid t = (st', Except.ok r)) :
    (s.current_question + 1 < s.questions.length →
      r = SubmitResult.next (s.questions.getD (s.current_question + 1) "")
        (s.current_question + 1) s.questions.length
        (ag.analyze_response (s.questions.getD s.current_question "") t s.category)) ∧
    (s.current_question + 1 = s.questions.length →
      r = SubmitResult.complete
        (ag.calculate_final_score (s.scores ++
          [ag.analyze_response (s.questions.getD s.current_question "") t s.category]))
        (ag.analyze_response (s.questions.getD s.current_question "") t s.category) ∧
      ∃ s' : Session, alookup st' iid = some s' ∧ s'.status = Status.completed ∧
        s'.final_result = some
          (ag.calculate_final_score (s.scores ++
            [ag.analyze_response (s.questions.getD s.current_question "") t
              s.category]))) := by
  obtain ⟨s0, hl0, _, _, hst', hres⟩ := submit_response_ok_inv ag store iid t st' r h
  rw [hl] at hl0
  cases hl0
  subst hst'
  subst hres
  constructor
  · intro hlt
    exact stepResult_next ag s t hlt
  · intro heq
    have hend : s.questions.length ≤ s.current_question + 1 := Nat.le_of_eq heq.symm
    obtain ⟨hstat, hfin⟩ := stepSession_complete ag s t hend
    exact ⟨stepResult_complete ag s t hend,
      stepSession ag s t, alookup_ainsert_self store iid _, hstat, hfin⟩

/-- C5 witness: instantiated at the final submission of a one-question
session. -/
theorem submit_result_tagging_witness :
    (bSession.current_question + 1 < bSession.questions.length →
      SubmitResult.complete bFinal bAnalysis =
        SubmitResult.next (bSession.questions.getD (bSession.current_question + 1) "")
          (bSession.current_question + 1) bSession.questions.length
          (smallAgent.analyze_response
            (bSession.questions.getD bSession.current_question "") "hi"
            bSession.category)) ∧
    (bSession.current_question + 1 = bSession.questions.length →
      SubmitResult.complete bFinal bAnalysis = SubmitResult.complete
        (smallAgent.calculate_final_score (bSession.scores ++
          [smallAgent.analyze_response
            (bSession.questions.getD bSession.current_question "") "hi"
            bSession.category]))
        (smallAgent.analyze_response
          (bSession.questions.getD bSession.current_question "") "hi"
          bSession.category) ∧
      ∃ s' : Session, alookup bStore2 "u_T" = some s' ∧
        s'.status = Status.completed ∧
        s'.final_result = some
          (smallAgent.calculate_final_score (bSession.scores ++
            [smallAgent.analyze_response
              (bSession.questions.getD bSession.current_question "") "hi"
              bSession.category]))) :=
  submit_result_tagging smallAgent bStore1 "u_T" "hi" bSession bStore2
    (SubmitResult.complete bFinal bAnalysis) (by decide) (by decide)

/-- C6: a submission against a completed session fails with
`sessionAlreadyCompleted`, the store is returned exactly as it was, and the
session — its responses, scores, cursor and final report — is untouched. -/
theorem completed_session_rejects (ag : FreeInterviewAgent) (store : Store)
    (iid t : String) (s : Session)
    (hl : alookup store iid = some s) (hc : s.status = Status.completed) :
    submit_response ag store iid t =
      (store, Except.error ApiError.sessionAlreadyCompleted) ∧
    alookup (submit_response ag store iid t).1 iid = some s := by
  have h := submit_response_completed ag store iid t s hl hc
  exact ⟨h, by rw [h]; exact hl⟩

/-- C6 witness: instantiated at the completed one-question session. -/
theorem completed_session_rejects_witness :
    submit_response smallAgent bStore2 "u_T" "x" =
      (bStore2, Except.error ApiError.sessionAlreadyCompleted) ∧
    alookup (submit_response smallAgent bStore2 "u_T" "x").1 "u_T" = some bDone :=
  completed_session_rejects smallAgent bStore2 "u_T" "x" bDone (by decide) (by decide)

/-- C7: in every store reachable through the two endpoints, an active session's
cursor is strictly below its question count, so `submit_response` can never
return the defensive `noQuestionsRemaining` error. -/
theorem active_sessions_have_questions (ag : FreeInterviewAgent) (store : Store)
    (h : Reachable ag store) :
    (∀ iid s, alookup store iid = some s → s.status = Status.active →
      s.current_question < s.questions.length) ∧
    (∀ iid t, (submit_response ag store iid t).2 ≠
      Except.error ApiError.noQuestionsRemaining) := by
  have hinv := reachable_storeInv ag store h
  have hact : ∀ iid s, alookup store iid = some s → s.status = Status.active →
      s.current_question < s.questions.length := by
    intro iid s hl hs
    obtain ⟨_, _, hle, hiff, _⟩ := hinv iid s hl
    have hne : s.current_question ≠ s.questions.length := by
      intro heq
      rw [hiff.mpr heq] at hs
      cases hs
    omega
  refine ⟨hact, ?_⟩
  intro iid t
  cases hl : alookup store iid with
  | none =>
      rw [submit_response_not_found ag store iid t hl]
      intro hcontr
      cases hcontr
  | some s =>
      by_cases hc : s.status = Status.completed
      · rw [submit_response_completed ag store iid t s hl hc]
        intro hcontr
        cases hcontr
      · have hs : s.status = Status.active :=
          status_active_of_ne_completed s.status hc
        rw [submit_response_eq_of ag store iid t s hl hs (hact iid s hl hs)]
        intro hcontr
        cases hcontr

/-- C7 witness: instantiated at the store holding one freshly created
technical session. -/
theorem active_sessions_have_questions_witness :
    (submit_response defaultAgent techStore "u_T" "x").2 ≠
      Except.error ApiError.noQuestionsRemaining :=
  (active_sessions_have_questions defaultAgent techStore
    (Reachable.create [] "technical" "u" "T" "iso" techStore
      (StartResponse.mk "u_T" "T1" 0 8 "technical") Reachable.empty
      (by decide))).2 "u_T" "x"

/-- C8: with the template keys being the four fixed categories, any other
category string makes `start_interview` fail with `invalidCategory`, the store
returned exactly as it was — no entry added. -/
theorem invalid_category_rejected (ag : FreeInterviewAgent) (store : Store)
    (category user_id now now_iso : String)
    (hkeys : ag.question_templates.map Prod.fst =
      ["technical", "behavioral", "management", "sales"])
    (hcat : ¬(category ∈
      (["technical", "behavioral", "management", "sales"] : List String))) :
    start_interview ag store category user_id now now_iso =
      (store, Except.error (ApiError.invalidCategory category)) := by
  apply start_interview_invalid
  rw [hkeys]
  exact hcat

/-- C8 witness: the category "cooking" is rejected. -/
theorem invalid_category_rejected_witness :
    start_interview defaultAgent [] "cooking" "u" "T" "iso" =
      ([], Except.error (ApiError.invalidCategory "cooking")) :=
  invalid_category_rejected defaultAgent [] "cooking" "u" "T" "iso" (by decide)
    (by decide)

/-- C9: a submission against an id absent from the store fails with
`sessionNotFound` and every binding of the store is left exactly as it was. -/
theorem unknown_session_rejected (ag : FreeInterviewAgent) (store : Store)
    (iid t : String) (h : alookup store iid = none) :
    submit_response ag store iid t = (store, Except.error ApiError.sessionNotFound) ∧
    ∀ iid', alookup (submit_response ag store iid t).1 iid' = alookup store iid' := by
  have he := submit_response_not_found ag store iid t h
  exact ⟨he, fun iid' => by rw [he]⟩

/-- C9 witness: instantiated at an id not present in the store. -/
theorem unknown_session_rejected_witness :
    submit_response defaultAgent techStore "nope" "x" =
      (techStore, Except.error ApiError.sessionNotFound) ∧
    ∀ iid', alookup (submit_response defaultAgent techStore "nope" "x").1 iid' =
      alookup techStore iid' :=
  unknown_session_rejected defaultAgent techStore "nope" "x" (by decide)

/-- C10: every `submit_response` call — success or failure — leaves the target
session's questions, category and id unchanged, and leaves every other id's
binding in the store exactly as it was. -/
theorem submit_response_frame (ag : FreeInterviewAgent) (store : Store)
    (iid t : String) (st' : Store) (res : Except ApiError SubmitResult)
    (h : submit_response ag store iid t = (st', res)) :
    (∀ iid', iid' ≠ iid → alookup st' iid' = alookup store iid') ∧
    (∀ s s', alookup store iid = some s → alookup st' iid = some s' →
      s'.questions = s.questions ∧ s'.category = s.category ∧
      s'.interview_id = s.interview_id) := by
  cases res with
  | error e =>
      have h2 : (submit_response ag store iid t).2 = Except.error e := by rw [h]
      have h1 := submit_response_error_store ag store iid t e h2
      rw [h] at h1
      subst h1
      refine ⟨fun iid' _ => rfl, fun s s' hs hs' => ?_⟩
      rw [hs] at hs'
      cases hs'
      exact ⟨rfl, rfl, rfl⟩
  | ok r =>
      obtain ⟨s0, hl0, _, _, hst', _⟩ := submit_response_ok_inv ag store iid t st' r h
      subst hst'
      constructor
      · intro iid' hne
        exact alookup_ainsert_ne store iid iid' _ hne
      · intro s s' hs hs'
        rw [alookup_ainsert_self] at hs'
        cases hs'
        rw [hl0] at hs
        cases hs
        exact ⟨stepSession_questions ag s0 t, stepSession_category ag s0 t,
          stepSession_id ag s0 t⟩

/-- C10 witness: instantiated at a concrete successful submission. -/
theorem submit_response_frame_witness :
    (∀ iid', iid' ≠ "u_T" → alookup techStore2 iid' = alookup techStore iid') ∧
    (∀ s s', alookup techStore "u_T" = some s → alookup techStore2 "u_T" = some s' →
      s'.questions = s.questions ∧ s'.category = s.category ∧
      s'.interview_id = s.interview_id) :=
  submit_response_frame defaultAgent techStore "u_T" "x" techStore2 techRes rfl

end InterviewAI
